import Mathlib

/-! Multi_Lang translator front end: `frontend/src/App.js`

A shallow embedding of the `App` component. The React state cells
(`langs`, `source`, `target`, `inputText`, `translation`, `loading`,
`error`) become one record, every handler becomes a function on that record,
and the two `fetch` calls become explicit outcomes handed to the continuation
that runs once the promise settles.

Values that come out of `JSON.parse` are kept as JavaScript values (`Json`):
the handlers store them in the state without looking at their type, so the
`translation`, `error` and `langs` cells hold a `Json`, not a string.
-/

namespace MultiLang

/-! ## JavaScript values produced by `JSON.parse` -/

/-- A number as `JSON.parse` returns it: a finite double (its exact rational
value; `-0` and `0` are both `0`) or an infinity, which a literal such as
`1e999` overflows to. `NaN` has no JSON literal. -/
inductive JsNumber where
  | finite (q : ℚ)
  | infinite (negative : Bool)

/-- The value of a JSON text. The members of an object are kept in the order
of the text, duplicates included. -/
inductive Json where
  | null
  | bool (b : Bool)
  | num (n : JsNumber)
  | str (s : String)
  | arr (items : List Json)
  | obj (members : List (String × Json))

/-- An exception object: `name` and `message` of an `Error` (or of a
`DOMException`, which shares `Error.prototype.toString`). -/
structure JsError where
  name : String
  message : String

/-- The text `String(err)` gives for an exception object
(`Error.prototype.toString`). -/
def JsError.toString (e : JsError) : String :=
  if e.name = "" then e.message
  else if e.message = "" then e.name
  else e.name ++ ": " ++ e.message

/-- JavaScript truthiness (`ToBoolean`) of a parsed value. -/
def Json.truthy : Json → Bool
  | .null => false
  | .bool b => b
  | .num (.finite q) => decide (q ≠ 0)
  | .num (.infinite _) => true
  | .str s => decide (s ≠ "")
  | .arr _ => true
  | .obj _ => true

/-- The last member named `key`: in an object built by `JSON.parse` a later
duplicate overwrites an earlier one. -/
def lookupMember (key : String) : List (String × Json) → Option Json
  | [] => none
  | (k, v) :: rest =>
    match lookupMember key rest with
    | some w => some w
    | none => if k = key then some v else none

/-- The `TypeError` of a property read on `null` (V8 wording of the
message). -/
def nullReadError (key : String) : JsError :=
  { name := "TypeError"
    message := "Cannot read properties of null (reading \x27" ++ key ++ "\x27)" }

/-- The `TypeError` of calling a property that is not a function. -/
def notAFunctionError (what : String) : JsError :=
  { name := "TypeError", message := what ++ " is not a function" }

/-- The property read `data.key` for one of the keys the component reads
(`translation`, `error`, `languages`), none of which a prototype provides:
`null` throws, an object gives its member or `undefined`, every other value
gives `undefined`. -/
def getProp (data : Json) (key : String) : Except JsError (Option Json) :=
  match data with
  | .null => .error (nullReadError key)
  | .obj members => .ok (lookupMember key members)
  | _ => .ok none

/-- The expression `a || b` with `a` the result of a property read. -/
def orElse (a : Option Json) (b : Json) : Json :=
  match a with
  | some v => if v.truthy then v else b
  | none => b

/-- Strict equality of a parsed value with a string
(`Array.prototype.includes` compares with SameValueZero). -/
def Json.isString (key : String) : Json → Bool
  | .str s => decide (s = key)
  | _ => false

/-- The method call `v.includes(key)` on a value that is neither `null` nor
`undefined`: membership for an array, substring search for a string; for
every other value `v.includes` is not a function and the call throws. -/
def includesCall (v : Json) (key : String) : Except JsError Bool :=
  match v with
  | .arr items => .ok (items.any (Json.isString key))
  | .str s => .ok (decide (key.toList <:+: s.toList))
  | _ => .error (notAFunctionError "data.languages.includes")

/-- The expression `v?.includes(key)` followed by the truthiness test of the
`if`: `undefined` and `null` short-circuit to a falsy `undefined`. -/
def optIncludes (v : Option Json) (key : String) : Except JsError Bool :=
  match v with
  | none => .ok false
  | some .null => .ok false
  | some w => includesCall w key

/-! ## `String.prototype.trim` -/

/-- The code points `trim` strips: ECMAScript WhiteSpace and
LineTerminator. -/
def isWhiteSpace (c : Char) : Bool :=
  c.val = 0x09 || c.val = 0x0A || c.val = 0x0B || c.val = 0x0C || c.val = 0x0D ||
  c.val = 0x20 || c.val = 0xA0 || c.val = 0x1680 ||
  (0x2000 ≤ c.val && c.val ≤ 0x200A) ||
  c.val = 0x2028 || c.val = 0x2029 || c.val = 0x202F || c.val = 0x205F ||
  c.val = 0x3000 || c.val = 0xFEFF

/-- The method `s.trim()`. -/
def trim (s : String) : String :=
  String.mk ((s.toList.dropWhile isWhiteSpace).reverse.dropWhile isWhiteSpace).reverse

/-! ## View state -/

/-- The seven `useState` cells of `App`. -/
structure ViewState where
  langs : Json
  source : String
  target : String
  inputText : String
  translation : Json
  loading : Bool
  error : Json

/-- The initial values given to `useState`. -/
def ViewState.initial : ViewState :=
  { langs := .arr []
    source := "en"
    target := "hi"
    inputText := ""
    translation := .str ""
    loading := false
    error := .str "" }

/-- The constant `API_BASE`: `process.env.REACT_APP_API_BASE ||
"http://localhost:8000"`, with `env` the value of the variable. -/
def API_BASE (env : Option String) : String :=
  match env with
  | some v => if v = "" then "http://localhost:8000" else v
  | none => "http://localhost:8000"

/-- A call of `fetch` with an options object. `body` is the value handed to
`JSON.stringify`; the text on the wire is its JSON serialisation. -/
structure Request where
  url : String
  method : String
  headers : List (String × String)
  body : Json

/-- How `fetch(...)` followed by `.json()` settles: the request promise
rejects, the body promise rejects, or the body parses to `data`. A response
with an error status still resolves and is parsed. -/
inductive FetchOutcome where
  | rejected (err : JsError)
  | unparsable (err : JsError)
  | parsed (data : Json)

/-- A block of statements: the state it leaves and the exception it throws,
if any. State writes made before a throw stay. -/
abbrev Block := ViewState → ViewState × Option JsError

/-- The statement `try { body } catch (err) { handler } finally { fin }`. -/
def tryCatchFinally (body : Block) (handler : JsError → Block) (fin : Block) : Block :=
  fun s =>
    let r := body s
    let r := match r.2 with
      | some err => handler err r.1
      | none => r
    let f := fin r.1
    match f.2 with
    | some err => (f.1, some err)
    | none => (f.1, r.2)

/-! ## The language list effect (lines 15-24) -/

/-- The callback `(data) => { ... }` of lines 18-22. -/
def languagesLoaded (data : Json) : Block :=
  fun s =>
    match getProp data "languages" with
    | .error err => (s, some err)
    | .ok l =>
      let s := { s with langs := orElse l (.arr []) }
      match optIncludes l "en" with
      | .error err => (s, some err)
      | .ok hasEn =>
        let s := if hasEn then { s with source := "en" } else s
        match optIncludes l "hi" with
        | .error err => (s, some err)
        | .ok hasHi =>
          let s := if hasHi then { s with target := "hi" } else s
          (s, none)

/-- The promise chain of the effect once the request settles: the state it
leaves and the exceptions `.catch` passes to `console.error`. -/
def loadLanguages (o : FetchOutcome) (s : ViewState) : ViewState × List JsError :=
  match o with
  | .rejected err => (s, [err])
  | .unparsable err => (s, [err])
  | .parsed data =>
    match languagesLoaded data s with
    | (s1, some err) => (s1, [err])
    | (s1, none) => (s1, [])

/-! ## `doTranslate` (lines 26-48) -/

/-- The request of lines 35-39. -/
def translateRequest (env : Option String) (s : ViewState) : Request :=
  { url := API_BASE env ++ "/translate"
    method := "POST"
    headers := [("Content-Type", "application/json")]
    body := .obj [("source", .str s.source), ("target", .str s.target),
                  ("text", .str s.inputText)] }

/-- Lines 27-35: the part of `doTranslate` that runs before the first
`await`, with the requests it sends. -/
def doTranslateStart (env : Option String) (s : ViewState) : ViewState × List Request :=
  let s1 := { s with error := .str "" }
  let s2 := { s1 with translation := .str "" }
  if trim s.inputText = "" then
    ({ s2 with error := .str "Enter some text to translate." }, [])
  else
    ({ s2 with loading := true }, [translateRequest env s])

/-- Line 42: `setError(data.error || "Unexpected response from server")`. -/
def reportServerError (data : Json) : Block :=
  fun s =>
    match getProp data "error" with
    | .error err => (s, some err)
    | .ok e => ({ s with error := orElse e (.str "Unexpected response from server") }, none)

/-- The `try` block from the point where the request settles (lines
35-42). -/
def translateBody (o : FetchOutcome) : Block :=
  fun s =>
    match o with
    | .rejected err => (s, some err)
    | .unparsable err => (s, some err)
    | .parsed data =>
      match getProp data "translation" with
      | .error err => (s, some err)
      | .ok none => reportServerError data s
      | .ok (some t) =>
        if t.truthy then ({ s with translation := t }, none)
        else reportServerError data s

/-- The `catch` block (line 44). -/
def translateCatch (err : JsError) : Block :=
  fun s => ({ s with error := .str ("Network or server error: " ++ err.toString) }, none)

/-- The `finally` block (line 46). -/
def translateFinally : Block :=
  fun s => ({ s with loading := false }, none)

/-- The rest of `doTranslate` after the request settles: the state it leaves
and the exception that escapes it, if any. -/
def doTranslateSettle (o : FetchOutcome) : Block :=
  tryCatchFinally (translateBody o) translateCatch translateFinally

/-- One run of `doTranslate`. -/
structure Attempt where
  view : ViewState
  requests : List Request
  escaped : Option JsError

/-- A whole translate attempt with nothing else happening in between: the
synchronous part, then, if a request was sent, its settlement with `o`. -/
def doTranslate (env : Option String) (o : FetchOutcome) (s : ViewState) : Attempt :=
  let r := doTranslateStart env s
  match r.2 with
  | [] => { view := r.1, requests := [], escaped := none }
  | reqs =>
    let r2 := doTranslateSettle o r.1
    { view := r2.1, requests := reqs, escaped := r2.2 }

/-- The swap button handler (line 69). -/
def swap (s : ViewState) : ViewState :=
  let t := s.source
  let s1 := { s with source := s.target }
  { s1 with target := t }

/-! ## The page as a transition system -/

/-- What can happen to a mounted page: the user acts, or a request that is
under way settles. -/
inductive Event where
  | selectSource (code : String)
  | selectTarget (code : String)
  | swapLanguages
  | editInput (text : String)
  | languagesSettled (o : FetchOutcome)
  | translate
  | translateSettled (o : FetchOutcome)

/-- The view state with the requests that have not settled yet. -/
structure Page where
  view : ViewState
  languagesPending : Bool
  inFlight : Nat

/-- The page right after mounting: the effect has sent the language list
request. -/
def Page.initial : Page :=
  { view := ViewState.initial, languagesPending := true, inFlight := 0 }

/-- One event, with `doTranslate` callable at any time (the function has no
guard of its own). `none` when the event cannot happen: a settlement without
a request under way. -/
def step (env : Option String) (p : Page) : Event → Option Page
  | .selectSource code => some { p with view := { p.view with source := code } }
  | .selectTarget code => some { p with view := { p.view with target := code } }
  | .swapLanguages => some { p with view := swap p.view }
  | .editInput text => some { p with view := { p.view with inputText := text } }
  | .languagesSettled o =>
    if p.languagesPending then
      some { p with view := (loadLanguages o p.view).1, languagesPending := false }
    else none
  | .translate =>
    let r := doTranslateStart env p.view
    some { p with view := r.1, inFlight := p.inFlight + r.2.length }
  | .translateSettled o =>
    if p.inFlight = 0 then none
    else some { p with view := (doTranslateSettle o p.view).1, inFlight := p.inFlight - 1 }

/-- One event on the rendered page: the submit button carries
`disabled={loading}` (line 79), so `doTranslate` runs only while `loading` is
false. -/
def stepUI (env : Option String) (p : Page) : Event → Option Page
  | .translate => if p.view.loading then none else step env p .translate
  | e => step env p e

/-- A sequence of events from `p`, with `doTranslate` callable at any
time. -/
def run (env : Option String) (p : Page) : List Event → Option Page
  | [] => some p
  | e :: es =>
    match step env p e with
    | some q => run env q es
    | none => none

/-- A sequence of events from `p` on the rendered page. -/
def runUI (env : Option String) (p : Page) : List Event → Option Page
  | [] => some p
  | e :: es =>
    match stepUI env p e with
    | some q => runUI env q es
    | none => none

/-- Both the result region and the error region are shown: `translation` and
`error` are both truthy (for strings: both non-empty). -/
def bothShown (s : ViewState) : Bool :=
  s.translation.truthy && s.error.truthy

/-- The outcomes of the language list request that carry no list: the request
or the body promise rejects, the body is `null`, or the `languages` property
of the parsed value is absent or falsy. -/
def withoutLanguages : FetchOutcome → Bool
  | .rejected _ => true
  | .unparsable _ => true
  | .parsed data =>
    match getProp data "languages" with
    | .error _ => true
    | .ok none => true
    | .ok (some v) => !v.truthy

/-- What holds of every page reached through the rendered controls: at most
one translate request is under way; while one is, `loading` is true and
`translation` and `error` are both empty; and the two are never shown
together. -/
def Orderly (p : Page) : Prop :=
  p.inFlight ≤ 1 ∧
  (p.inFlight = 1 →
    p.view.loading = true ∧ p.view.translation = .str "" ∧ p.view.error = .str "") ∧
  bothShown p.view = false

/-! ## Lemmas on the handlers -/

theorem doTranslateStart_blank (env : Option String) (s : ViewState)
    (h : trim s.inputText = "") :
    doTranslateStart env s =
      ({ s with error := .str "Enter some text to translate.", translation := .str "" }, []) := by
  simp [doTranslateStart, h]

theorem doTranslateStart_nonblank (env : Option String) (s : ViewState)
    (h : trim s.inputText ≠ "") :
    doTranslateStart env s =
      ({ s with error := .str "", translation := .str "", loading := true },
        [translateRequest env s]) := by
  simp [doTranslateStart, h]

theorem doTranslateSettle_rejected (err : JsError) (s : ViewState) :
    doTranslateSettle (.rejected err) s =
      ({ s with error := .str ("Network or server error: " ++ err.toString),
                loading := false }, none) := by
  simp [doTranslateSettle, tryCatchFinally, translateBody, translateCatch, translateFinally]

theorem doTranslateSettle_unparsable (err : JsError) (s : ViewState) :
    doTranslateSettle (.unparsable err) s =
      ({ s with error := .str ("Network or server error: " ++ err.toString),
                loading := false }, none) := by
  simp [doTranslateSettle, tryCatchFinally, translateBody, translateCatch, translateFinally]

theorem doTranslateSettle_null (s : ViewState) :
    doTranslateSettle (.parsed .null) s =
      ({ s with error := .str ("Network or server error: " ++
                  (nullReadError "translation").toString),
                loading := false }, none) := by
  simp [doTranslateSettle, tryCatchFinally, translateBody, translateCatch, translateFinally,
    getProp]

theorem doTranslateSettle_translation (data : Json) (t : Json) (s : ViewState)
    (ht : getProp data "translation" = .ok (some t)) (htruthy : t.truthy = true) :
    doTranslateSettle (.parsed data) s =
      ({ s with translation := t, loading := false }, none) := by
  simp [doTranslateSettle, tryCatchFinally, translateBody, translateFinally, ht, htruthy]

theorem reportServerError_ok (data : Json) (e : Option Json) (s : ViewState)
    (he : getProp data "error" = .ok e) :
    reportServerError data s =
      ({ s with error := orElse e (.str "Unexpected response from server") }, none) := by
  simp [reportServerError, he]

theorem doTranslateSettle_noTranslation (data : Json) (t e : Option Json) (s : ViewState)
    (ht : getProp data "translation" = .ok t) (hfalsy : ∀ v, t = some v → v.truthy = false)
    (he : getProp data "error" = .ok e) :
    doTranslateSettle (.parsed data) s =
      ({ s with error := orElse e (.str "Unexpected response from server"),
                loading := false }, none) := by
  cases t with
  | none =>
    simp [doTranslateSettle, tryCatchFinally, translateBody, translateFinally, ht,
      reportServerError_ok data e s he]
  | some v =>
    have hv := hfalsy v rfl
    simp [doTranslateSettle, tryCatchFinally, translateBody, translateFinally, ht, hv,
      reportServerError_ok data e s he]

theorem doTranslate_blank (env : Option String) (o : FetchOutcome) (s : ViewState)
    (h : trim s.inputText = "") :
    doTranslate env o s =
      { view := { s with error := .str "Enter some text to translate.",
                         translation := .str "" }
        requests := []
        escaped := none } := by
  simp [doTranslate, doTranslateStart_blank env s h]

theorem doTranslate_nonblank (env : Option String) (o : FetchOutcome) (s : ViewState)
    (h : trim s.inputText ≠ "") :
    doTranslate env o s =
      { view := (doTranslateSettle o
          { s with error := .str "", translation := .str "", loading := true }).1
        requests := [translateRequest env s]
        escaped := (doTranslateSettle o
          { s with error := .str "", translation := .str "", loading := true }).2 } := by
  simp [doTranslate, doTranslateStart_nonblank env s h]

/-! ## The claims about one translate attempt -/

/-- C2: when `inputText` is empty after `trim`, `doTranslate` ends with the
validation message in `error`, an empty `translation`, `loading` as it was
and every other cell as it was; it sends no request and throws nothing. -/
theorem translate_blank_input (env : Option String) (o : FetchOutcome) (s : ViewState)
    (h : trim s.inputText = "") :
    (doTranslate env o s).view.error = .str "Enter some text to translate." ∧
    (doTranslate env o s).view.translation = .str "" ∧
    (doTranslate env o s).view.loading = s.loading ∧
    (doTranslate env o s).requests = [] ∧
    (doTranslate env o s).escaped = none ∧
    (doTranslate env o s).view =
      { s with error := .str "Enter some text to translate.", translation := .str "" } := by
  rw [doTranslate_blank env o s h]
  exact ⟨rfl, rfl, rfl, rfl, rfl, rfl⟩

theorem translate_blank_input_witness :
    trim "   " = "" ∧
    (doTranslate none (.rejected ⟨"TypeError", "Failed to fetch"⟩)
      { ViewState.initial with inputText := "   ", translation := .str "old",
                               loading := true }).view.loading = true ∧
    (doTranslate none (.rejected ⟨"TypeError", "Failed to fetch"⟩)
      { ViewState.initial with inputText := "   ", translation := .str "old",
                               loading := true }).view.translation = .str "" :=
  ⟨by decide,
   (translate_blank_input none (.rejected ⟨"TypeError", "Failed to fetch"⟩)
      { ViewState.initial with inputText := "   ", translation := .str "old",
                               loading := true } (by decide)).2.2.1,
   (translate_blank_input none (.rejected ⟨"TypeError", "Failed to fetch"⟩)
      { ViewState.initial with inputText := "   ", translation := .str "old",
                               loading := true } (by decide)).2.1⟩

/-- C3: when `inputText` is not blank and the response parses to a value
whose `translation` property is truthy (for a string: non-empty), the
attempt ends with `translation` equal to that property, `error` empty and
`loading` false, whatever `translation` and `error` held before and whatever
else the response carries. -/
theorem translate_success (env : Option String) (s : ViewState) (data t : Json)
    (h : trim s.inputText ≠ "")
    (ht : getProp data "translation" = .ok (some t)) (htruthy : t.truthy = true) :
    (doTranslate env (.parsed data) s).view.translation = t ∧
    (doTranslate env (.parsed data) s).view.error = .str "" ∧
    (doTranslate env (.parsed data) s).view.loading = false := by
  rw [doTranslate_nonblank env _ s h, doTranslateSettle_translation data t _ ht htruthy]
  exact ⟨rfl, rfl, rfl⟩

theorem translate_success_witness :
    (doTranslate none
      (.parsed (.obj [("translation", .str "नमस्ते"), ("error", .str "ignored")]))
      { ViewState.initial with inputText := "Hello", translation := .str "old",
                               error := .str "old error" }).view.translation
      = .str "नमस्ते" ∧
    (doTranslate none
      (.parsed (.obj [("translation", .str "नमस्ते"), ("error", .str "ignored")]))
      { ViewState.initial with inputText := "Hello", translation := .str "old",
                               error := .str "old error" }).view.error = .str "" ∧
    (doTranslate none
      (.parsed (.obj [("translation", .str "नमस्ते"), ("error", .str "ignored")]))
      { ViewState.initial with inputText := "Hello", translation := .str "old",
                               error := .str "old error" }).view.loading = false :=
  translate_success none
    { ViewState.initial with inputText := "Hello", translation := .str "old",
                             error := .str "old error" }
    (.obj [("translation", .str "नमस्ते"), ("error", .str "ignored")]) (.str "नमस्ते")
    (by decide) rfl (by decide)

/-- C4, as stated, fails at two responses. For `{"error": ""}` the `error`
property is present, yet `error` ends as the fallback text and not as the
property. For `null` the read of `data.translation` throws, and `error` ends
with the text of the `catch` block. -/
theorem translate_error_field_counterexample :
    trim "Hello" ≠ "" ∧
    getProp (.obj [("error", .str "")]) "translation" = .ok none ∧
    getProp (.obj [("error", .str "")]) "error" = .ok (some (.str "")) ∧
    (doTranslate none (.parsed (.obj [("error", .str "")]))
      { ViewState.initial with inputText := "Hello" }).view.error
      = .str "Unexpected response from server" ∧
    (doTranslate none (.parsed (.obj [("error", .str "")]))
      { ViewState.initial with inputText := "Hello" }).view.error ≠ .str "" ∧
    (doTranslate none (.parsed .null)
      { ViewState.initial with inputText := "Hello" }).view.error
      = .str ("Network or server error: TypeError: " ++
          "Cannot read properties of null (reading \x27translation\x27)") ∧
    (doTranslate none (.parsed .null)
      { ViewState.initial with inputText := "Hello" }).view.error
      ≠ .str "Unexpected response from server" := by
  refine ⟨by decide, rfl, rfl, rfl, ?_, rfl, ?_⟩
  · intro h
    have h2 : (Json.str "Unexpected response from server") = .str "" := h
    injection h2 with h3
    exact absurd h3 (by decide)
  · intro h
    have h2 : Json.str ("Network or server error: TypeError: " ++
          "Cannot read properties of null (reading \x27translation\x27)")
        = .str "Unexpected response from server" := h
    injection h2 with h3
    exact absurd h3 (by decide)

/-- C4, amended: when `inputText` is not blank and the response parses to a
value other than `null` whose `translation` property is absent or falsy, the
attempt ends with `translation` empty, `loading` false and nothing thrown;
`error` is the response's `error` property when that property is truthy (for
a string: non-empty), and the text "Unexpected response from server" when it
is absent or falsy, as for `{}`. -/
theorem translate_server_error (env : Option String) (s : ViewState) (data : Json)
    (t e : Option Json) (h : trim s.inputText ≠ "")
    (ht : getProp data "translation" = .ok t) (hfalsy : ∀ v, t = some v → v.truthy = false)
    (he : getProp data "error" = .ok e) :
    (doTranslate env (.parsed data) s).view.translation = .str "" ∧
    (doTranslate env (.parsed data) s).view.loading = false ∧
    (doTranslate env (.parsed data) s).escaped = none ∧
    (∀ v, e = some v → v.truthy = true →
      (doTranslate env (.parsed data) s).view.error = v) ∧
    ((e = none ∨ ∃ v, e = some v ∧ v.truthy = false) →
      (doTranslate env (.parsed data) s).view.error
        = .str "Unexpected response from server") := by
  rw [doTranslate_nonblank env _ s h, doTranslateSettle_noTranslation data t e _ ht hfalsy he]
  refine ⟨rfl, rfl, rfl, ?_, ?_⟩
  · intro v hv htr
    subst hv
    simp [orElse, htr]
  · intro hcase
    rcases hcase with hnone | ⟨v, hv, hfl⟩
    · subst hnone
      simp [orElse]
    · subst hv
      simp [orElse, hfl]

theorem translate_server_error_witness :
    (doTranslate none (.parsed (.obj [("error", .str "unsupported language pair")]))
      { ViewState.initial with inputText := "Hello" }).view.error
      = .str "unsupported language pair" ∧
    (doTranslate none (.parsed (.obj []))
      { ViewState.initial with inputText := "Hello" }).view.error
      = .str "Unexpected response from server" :=
  ⟨(translate_server_error none { ViewState.initial with inputText := "Hello" }
      (.obj [("error", .str "unsupported language pair")]) none
      (some (.str "unsupported language pair")) (by decide) rfl (by simp) rfl).2.2.2.1
      (.str "unsupported language pair") rfl (by decide),
   (translate_server_error none { ViewState.initial with inputText := "Hello" }
      (.obj []) none none (by decide) rfl (by simp) rfl).2.2.2.2 (Or.inl rfl)⟩

/-- C5: when `inputText` is not blank and the request fails, either because
`fetch` rejects or because the body does not parse, `doTranslate` throws
nothing and ends with `error` equal to "Network or server error: " followed
by `String(err)`, `translation` empty and `loading` false. -/
theorem translate_transport_failure (env : Option String) (s : ViewState) (err : JsError)
    (o : FetchOutcome) (h : trim s.inputText ≠ "")
    (ho : o = .rejected err ∨ o = .unparsable err) :
    (doTranslate env o s).escaped = none ∧
    (doTranslate env o s).view.error
      = .str ("Network or server error: " ++ err.toString) ∧
    (doTranslate env o s).view.translation = .str "" ∧
    (doTranslate env o s).view.loading = false := by
  rcases ho with ho | ho
  · subst ho
    rw [doTranslate_nonblank env _ s h, doTranslateSettle_rejected]
    exact ⟨rfl, rfl, rfl, rfl⟩
  · subst ho
    rw [doTranslate_nonblank env _ s h, doTranslateSettle_unparsable]
    exact ⟨rfl, rfl, rfl, rfl⟩

theorem translate_transport_failure_witness :
    (doTranslate none (.rejected ⟨"TypeError", "Failed to fetch"⟩)
      { ViewState.initial with inputText := "Hello" }).view.error
      = .str "Network or server error: TypeError: Failed to fetch" ∧
    (doTranslate none (.unparsable ⟨"SyntaxError", "Unexpected token < in JSON"⟩)
      { ViewState.initial with inputText := "Hello", translation := .str "old" }).view.translation
      = .str "" :=
  ⟨(translate_transport_failure none { ViewState.initial with inputText := "Hello" }
      ⟨"TypeError", "Failed to fetch"⟩ _ (by decide) (Or.inl rfl)).2.1,
   (translate_transport_failure none
      { ViewState.initial with inputText := "Hello", translation := .str "old" }
      ⟨"SyntaxError", "Unexpected token < in JSON"⟩ _ (by decide) (Or.inr rfl)).2.2.1⟩

/-- C6: the swap handler puts the old `target` in `source` and the old
`source` in `target`, leaves every other cell as it was, and undoes itself
when run twice, also when the two languages are equal. -/
theorem swap_exchanges (s : ViewState) :
    (swap s).source = s.target ∧ (swap s).target = s.source ∧
    (swap s).langs = s.langs ∧ (swap s).inputText = s.inputText ∧
    (swap s).translation = s.translation ∧ (swap s).loading = s.loading ∧
    (swap s).error = s.error ∧
    swap (swap s) = s ∧
    swap { s with target := s.source } = { s with target := s.source } :=
  ⟨rfl, rfl, rfl, rfl, rfl, rfl, rfl, rfl, rfl⟩

/-- C10: when `inputText` is not blank, `doTranslate` sends exactly one
request: a POST to `API_BASE` followed by "/translate", with the header
Content-Type: application/json, whose body is the object with `source`,
`target` and, under `text`, `inputText` as stored, not its trimmed copy. When
`inputText` is blank it sends none. -/
theorem translate_request (env : Option String) (o : FetchOutcome) (s : ViewState) :
    (trim s.inputText ≠ "" →
      (doTranslate env o s).requests =
        [{ url := API_BASE env ++ "/translate"
           method := "POST"
           headers := [("Content-Type", "application/json")]
           body := .obj [("source", .str s.source), ("target", .str s.target),
                         ("text", .str s.inputText)] }]) ∧
    (trim s.inputText = "" → (doTranslate env o s).requests = []) := by
  constructor
  · intro h
    rw [doTranslate_nonblank env o s h]
    rfl
  · intro h
    rw [doTranslate_blank env o s h]

theorem translate_request_witness :
    (doTranslate none (.parsed .null)
      { ViewState.initial with inputText := "  Hello \n" }).requests =
      [{ url := "http://localhost:8000/translate"
         method := "POST"
         headers := [("Content-Type", "application/json")]
         body := .obj [("source", .str "en"), ("target", .str "hi"),
                       ("text", .str "  Hello \n")] }] ∧
    (doTranslate none (.parsed .null)
      { ViewState.initial with inputText := " \t " }).requests = [] :=
  ⟨(translate_request none (.parsed .null)
      { ViewState.initial with inputText := "  Hello \n" }).1 (by decide),
   (translate_request none (.parsed .null)
      { ViewState.initial with inputText := " \t " }).2 (by decide)⟩

/-! ## The language list -/

/-- The test `includes` makes on an array: some element is the string
`key`. -/
theorem any_isString (key : String) (items : List Json) :
    items.any (Json.isString key) = true ↔ Json.str key ∈ items := by
  simp only [List.any_eq_true]
  constructor
  · rintro ⟨x, hx, hk⟩
    cases x <;> simp [Json.isString] at hk
    subst hk
    exact hx
  · intro h
    exact ⟨_, h, by simp [Json.isString]⟩

/-- The callback on a response whose `languages` is the array `items`, or is
absent with `items` empty. -/
theorem languagesLoaded_array (data : Json) (items : List Json) (s : ViewState)
    (h : getProp data "languages" = .ok (some (.arr items)) ∨
      (getProp data "languages" = .ok none ∧ items = [])) :
    languagesLoaded data s =
      ({ s with langs := .arr items
                source := if items.any (Json.isString "en") then "en" else s.source
                target := if items.any (Json.isString "hi") then "hi" else s.target },
        none) := by
  rcases h with h | ⟨h, hi⟩
  · simp only [languagesLoaded, h, orElse, Json.truthy, optIncludes, includesCall]
    by_cases h1 : items.any (Json.isString "en") = true <;>
      by_cases h2 : items.any (Json.isString "hi") = true <;> simp [h1, h2]
  · subst hi
    simp [languagesLoaded, h, orElse, optIncludes]

/-- C7: when the language list response parses to a value whose `languages`
property is the array `items`, or has no such property (`items` empty), then
whatever the state is when the response arrives, `langs` becomes `items` in
the same order, `source` becomes "en" when `items` contains "en" and stays
as it was otherwise, `target` becomes "hi" when `items` contains "hi" and
stays as it was otherwise, each test on its own; no other cell changes and
nothing is logged. -/
theorem languages_success (data : Json) (items : List Json) (s : ViewState)
    (h : getProp data "languages" = .ok (some (.arr items)) ∨
      (getProp data "languages" = .ok none ∧ items = [])) :
    (loadLanguages (.parsed data) s).1.langs = .arr items ∧
    (Json.str "en" ∈ items → (loadLanguages (.parsed data) s).1.source = "en") ∧
    (Json.str "en" ∉ items → (loadLanguages (.parsed data) s).1.source = s.source) ∧
    (Json.str "hi" ∈ items → (loadLanguages (.parsed data) s).1.target = "hi") ∧
    (Json.str "hi" ∉ items → (loadLanguages (.parsed data) s).1.target = s.target) ∧
    (loadLanguages (.parsed data) s).1.inputText = s.inputText ∧
    (loadLanguages (.parsed data) s).1.translation = s.translation ∧
    (loadLanguages (.parsed data) s).1.loading = s.loading ∧
    (loadLanguages (.parsed data) s).1.error = s.error ∧
    (loadLanguages (.parsed data) s).2 = [] := by
  have hl : loadLanguages (.parsed data) s = ((languagesLoaded data s).1, []) := by
    simp [loadLanguages, languagesLoaded_array data items s h]
  rw [hl, languagesLoaded_array data items s h]
  refine ⟨rfl, ?_, ?_, ?_, ?_, rfl, rfl, rfl, rfl, rfl⟩
  · intro hm
    simp [(any_isString "en" items).mpr hm]
  · intro hm
    have : ¬ (items.any (Json.isString "en") = true) := fun hc =>
      hm ((any_isString "en" items).mp hc)
    simp [this]
  · intro hm
    simp [(any_isString "hi" items).mpr hm]
  · intro hm
    have : ¬ (items.any (Json.isString "hi") = true) := fun hc =>
      hm ((any_isString "hi" items).mp hc)
    simp [this]

theorem languages_success_witness :
    ((loadLanguages
        (.parsed (.obj [("languages", .arr [.str "en", .str "hi", .str "fr"])]))
        ViewState.initial).1.langs = .arr [.str "en", .str "hi", .str "fr"] ∧
      (loadLanguages
        (.parsed (.obj [("languages", .arr [.str "en", .str "hi", .str "fr"])]))
        ViewState.initial).1.source = "en" ∧
      (loadLanguages
        (.parsed (.obj [("languages", .arr [.str "en", .str "hi", .str "fr"])]))
        ViewState.initial).1.target = "hi") ∧
    ((loadLanguages (.parsed (.obj [("languages", .arr [.str "fr", .str "de"])]))
        ViewState.initial).1.langs = .arr [.str "fr", .str "de"] ∧
      (loadLanguages (.parsed (.obj [("languages", .arr [.str "fr", .str "de"])]))
        ViewState.initial).1.source = ViewState.initial.source ∧
      (loadLanguages (.parsed (.obj [("languages", .arr [.str "fr", .str "de"])]))
        ViewState.initial).1.target = ViewState.initial.target) :=
  ⟨⟨(languages_success (.obj [("languages", .arr [.str "en", .str "hi", .str "fr"])])
        [.str "en", .str "hi", .str "fr"] ViewState.initial (Or.inl rfl)).1,
    (languages_success (.obj [("languages", .arr [.str "en", .str "hi", .str "fr"])])
        [.str "en", .str "hi", .str "fr"] ViewState.initial (Or.inl rfl)).2.1
        (by simp),
    (languages_success (.obj [("languages", .arr [.str "en", .str "hi", .str "fr"])])
        [.str "en", .str "hi", .str "fr"] ViewState.initial (Or.inl rfl)).2.2.2.1
        (by simp)⟩,
   ⟨(languages_success (.obj [("languages", .arr [.str "fr", .str "de"])])
        [.str "fr", .str "de"] ViewState.initial (Or.inl rfl)).1,
    (languages_success (.obj [("languages", .arr [.str "fr", .str "de"])])
        [.str "fr", .str "de"] ViewState.initial (Or.inl rfl)).2.2.1
        (by simp),
    (languages_success (.obj [("languages", .arr [.str "fr", .str "de"])])
        [.str "fr", .str "de"] ViewState.initial (Or.inl rfl)).2.2.2.2.1
        (by simp)⟩⟩

/-- The callback leaves a state whose `langs` is empty as it is when the
`languages` property is absent or falsy. -/
theorem languagesLoaded_falsy (data : Json) (l : Option Json) (s : ViewState)
    (hs : s.langs = .arr []) (hl : getProp data "languages" = .ok l)
    (hfalsy : ∀ v, l = some v → v.truthy = false) :
    (languagesLoaded data s).1 = s := by
  obtain ⟨langs, source, target, inputText, translation, loading, error⟩ := s
  simp only at hs
  subst hs
  cases l with
  | none => simp [languagesLoaded, hl, orElse, optIncludes]
  | some v =>
    have hv := hfalsy v rfl
    cases v with
    | null => simp [languagesLoaded, hl, orElse, optIncludes, Json.truthy]
    | bool b =>
      simp only [Json.truthy] at hv
      subst hv
      simp [languagesLoaded, hl, orElse, optIncludes, includesCall, Json.truthy]
    | num n =>
      cases n with
      | finite q =>
        simp [languagesLoaded, hl, orElse, optIncludes, includesCall, hv]
      | infinite neg => simp [Json.truthy] at hv
    | str t =>
      have ht : t = "" := by simpa [Json.truthy] using hv
      subst ht
      simp [languagesLoaded, hl, orElse, optIncludes, includesCall, Json.truthy]
    | arr items => simp [Json.truthy] at hv
    | obj members => simp [Json.truthy] at hv

/-- C8, as stated, fails at the response `{"languages": "hi"}`, which is
JSON but carries no array of strings: arriving after one swap (`source` "hi",
`target` "en", `langs` empty) it puts the string "hi" in `langs` and sets
`target` to "hi". -/
theorem languages_malformed_counterexample :
    (swap ViewState.initial).langs = .arr [] ∧
    (swap ViewState.initial).target = "en" ∧
    (loadLanguages (.parsed (.obj [("languages", .str "hi")]))
      (swap ViewState.initial)).1.langs = .str "hi" ∧
    (loadLanguages (.parsed (.obj [("languages", .str "hi")]))
      (swap ViewState.initial)).1.langs ≠ .arr [] ∧
    (loadLanguages (.parsed (.obj [("languages", .str "hi")]))
      (swap ViewState.initial)).1.target = "hi" ∧
    (loadLanguages (.parsed (.obj [("languages", .str "hi")]))
      (swap ViewState.initial)).1.target ≠ (swap ViewState.initial).target := by
  refine ⟨rfl, rfl, rfl, ?_, rfl, ?_⟩
  · intro h
    have h2 : Json.str "hi" = .arr [] := h
    cases h2
  · intro h
    have h2 : "hi" = "en" := h
    exact absurd h2 (by decide)

/-- C8, amended: when the language list request fails by a network error or
by a body that does not parse as JSON, or when the response is `null` or has
no truthy `languages` property, the completion changes no cell of a state
whose `langs` is still empty: `langs` stays empty, `error` is not set, and
`source`, `target`, `inputText`, `translation` and `loading` are as before. -/
theorem languages_failure_silent (o : FetchOutcome) (s : ViewState)
    (hs : s.langs = .arr []) (ho : withoutLanguages o = true) :
    (loadLanguages o s).1 = s := by
  cases o with
  | rejected err => rfl
  | unparsable err => rfl
  | parsed data =>
    have hfst : (loadLanguages (.parsed data) s).1 = (languagesLoaded data s).1 := by
      simp only [loadLanguages]
      split <;> simp_all
    rw [hfst]
    cases hg : getProp data "languages" with
    | error err => simp [languagesLoaded, hg]
    | ok l =>
      apply languagesLoaded_falsy data l s hs hg
      intro v hv
      subst hv
      simpa [withoutLanguages, hg] using ho

theorem languages_failure_silent_witness :
    (loadLanguages (.rejected ⟨"TypeError", "Failed to fetch"⟩) ViewState.initial).1
      = ViewState.initial ∧
    (loadLanguages (.unparsable ⟨"SyntaxError", "Unexpected end of JSON input"⟩)
      ViewState.initial).1 = ViewState.initial ∧
    (loadLanguages (.parsed .null) ViewState.initial).1 = ViewState.initial ∧
    (loadLanguages (.parsed (.obj [("languages", .bool false)])) ViewState.initial).1
      = ViewState.initial :=
  ⟨languages_failure_silent _ ViewState.initial rfl rfl,
   languages_failure_silent _ ViewState.initial rfl rfl,
   languages_failure_silent _ ViewState.initial rfl rfl,
   languages_failure_silent _ ViewState.initial rfl rfl⟩

/-! ## Frame lemmas -/

/-- The language list callback writes `langs`, `source` and `target`
only. -/
theorem languagesLoaded_frame (data : Json) (s : ViewState) :
    (languagesLoaded data s).1.inputText = s.inputText ∧
    (languagesLoaded data s).1.translation = s.translation ∧
    (languagesLoaded data s).1.loading = s.loading ∧
    (languagesLoaded data s).1.error = s.error := by
  unfold languagesLoaded
  repeat (first | split | exact ⟨rfl, rfl, rfl, rfl⟩)

/-- The language list completion writes `langs`, `source` and `target`
only. -/
theorem loadLanguages_frame (o : FetchOutcome) (s : ViewState) :
    (loadLanguages o s).1.inputText = s.inputText ∧
    (loadLanguages o s).1.translation = s.translation ∧
    (loadLanguages o s).1.loading = s.loading ∧
    (loadLanguages o s).1.error = s.error := by
  cases o with
  | rejected err => exact ⟨rfl, rfl, rfl, rfl⟩
  | unparsable err => exact ⟨rfl, rfl, rfl, rfl⟩
  | parsed data =>
    have hfst : (loadLanguages (.parsed data) s).1 = (languagesLoaded data s).1 := by
      simp only [loadLanguages]
      split <;> simp_all
    rw [hfst]
    exact languagesLoaded_frame data s

/-- The `try` block writes at most one of `translation` and `error`, and
leaves `loading` alone. -/
theorem translateBody_frame (o : FetchOutcome) (s : ViewState) :
    (translateBody o s).1.loading = s.loading ∧
    (((translateBody o s).1.translation = s.translation ∧ (translateBody o s).2 ≠ none) ∨
     ((translateBody o s).1.error = s.error ∧ (translateBody o s).2 = none) ∨
     ((translateBody o s).1.translation = s.translation ∧ (translateBody o s).2 = none)) := by
  unfold translateBody reportServerError
  repeat (first | split | simp)

/-- Whatever the outcome, the settlement of a request throws nothing, ends
with `loading` false, and writes at most one of `translation` and `error`. -/
theorem doTranslateSettle_frame (o : FetchOutcome) (s : ViewState) :
    (doTranslateSettle o s).2 = none ∧
    (doTranslateSettle o s).1.loading = false ∧
    ((doTranslateSettle o s).1.translation = s.translation ∨
     (doTranslateSettle o s).1.error = s.error) := by
  obtain ⟨_, hb⟩ := translateBody_frame o s
  simp only [doTranslateSettle, tryCatchFinally, translateCatch, translateFinally]
  rcases hb with ⟨ht, hthrow⟩ | ⟨he, hno⟩ | ⟨ht, hno⟩
  · cases hr : (translateBody o s).2 with
    | none => exact absurd hr hthrow
    | some err => simp [ht]
  · simp [hno, he]
  · simp [hno, ht]

/-! ## The loading flag -/

/-- C9: when `inputText` is not blank, the synchronous part of
`doTranslate` leaves `loading` true with the request sent; the settlement of
a request leaves `loading` false on every path (a truthy `translation`, a
parsed response without one, a rejected request or an unparsable body); and
an event that changes `loading` is either a `doTranslate` call that passes
validation, which sets it to true, or the settlement of a request, which
sets it to false. -/
theorem loading_bracket (env : Option String) :
    (∀ s, trim s.inputText ≠ "" →
      (doTranslateStart env s).1.loading = true ∧
      (doTranslateStart env s).2 = [translateRequest env s]) ∧
    (∀ o s, (doTranslateSettle o s).1.loading = false) ∧
    (∀ o s, trim s.inputText ≠ "" → (doTranslate env o s).view.loading = false) ∧
    (∀ p e q, step env p e = some q → q.view.loading ≠ p.view.loading →
      (e = .translate ∧ trim p.view.inputText ≠ "" ∧ q.view.loading = true) ∨
      (∃ o, e = .translateSettled o ∧ q.view.loading = false)) := by
  refine ⟨?_, ?_, ?_, ?_⟩
  · intro s h
    rw [doTranslateStart_nonblank env s h]
    exact ⟨rfl, rfl⟩
  · intro o s
    exact (doTranslateSettle_frame o s).2.1
  · intro o s h
    rw [doTranslate_nonblank env o s h]
    exact (doTranslateSettle_frame o _).2.1
  · intro p e q hstep hne
    cases e with
    | selectSource code =>
      simp only [step, Option.some.injEq] at hstep
      subst hstep
      exact absurd rfl hne
    | selectTarget code =>
      simp only [step, Option.some.injEq] at hstep
      subst hstep
      exact absurd rfl hne
    | swapLanguages =>
      simp only [step, Option.some.injEq] at hstep
      subst hstep
      exact absurd rfl hne
    | editInput text =>
      simp only [step, Option.some.injEq] at hstep
      subst hstep
      exact absurd rfl hne
    | languagesSettled o =>
      simp only [step] at hstep
      split at hstep
      · simp only [Option.some.injEq] at hstep
        subst hstep
        exact absurd (loadLanguages_frame o p.view).2.2.1 hne
      · exact absurd hstep (by simp)
    | translate =>
      left
      simp only [step, Option.some.injEq] at hstep
      subst hstep
      by_cases hb : trim p.view.inputText = ""
      · rw [doTranslateStart_blank env p.view hb] at hne
        exact absurd rfl hne
      · refine ⟨rfl, hb, ?_⟩
        rw [doTranslateStart_nonblank env p.view hb]
    | translateSettled o =>
      right
      simp only [step] at hstep
      split at hstep
      · exact absurd hstep (by simp)
      · simp only [Option.some.injEq] at hstep
        subst hstep
        exact ⟨o, rfl, (doTranslateSettle_frame o p.view).2.1⟩

theorem loading_bracket_witness :
    ((doTranslateStart none { ViewState.initial with inputText := "Hello" }).1.loading = true ∧
      (doTranslateStart none { ViewState.initial with inputText := "Hello" }).2
        = [translateRequest none { ViewState.initial with inputText := "Hello" }]) ∧
    (doTranslate none (.parsed (.obj [("translation", .str "x")]))
      { ViewState.initial with inputText := "Hello" }).view.loading = false ∧
    (doTranslate none (.parsed (.obj []))
      { ViewState.initial with inputText := "Hello" }).view.loading = false ∧
    (doTranslate none (.rejected ⟨"TypeError", "Failed to fetch"⟩)
      { ViewState.initial with inputText := "Hello" }).view.loading = false :=
  ⟨(loading_bracket none).1 { ViewState.initial with inputText := "Hello" } (by decide),
   (loading_bracket none).2.2.1 _ { ViewState.initial with inputText := "Hello" } (by decide),
   (loading_bracket none).2.2.1 _ { ViewState.initial with inputText := "Hello" } (by decide),
   (loading_bracket none).2.2.1 _ { ViewState.initial with inputText := "Hello" } (by decide)⟩

/-! ## `translation` and `error` are not shown together -/

theorem orderly_initial : Orderly Page.initial :=
  ⟨Nat.zero_le 1, fun h => absurd h (by decide), rfl⟩

/-- Every event of the rendered page keeps the page orderly. -/
theorem stepUI_orderly (env : Option String) (p q : Page) (e : Event)
    (hp : Orderly p) (hstep : stepUI env p e = some q) : Orderly q := by
  obtain ⟨hle, hflight, hshown⟩ := hp
  cases e with
  | selectSource code =>
    simp only [stepUI, step, Option.some.injEq] at hstep
    subst hstep
    exact ⟨hle, hflight, hshown⟩
  | selectTarget code =>
    simp only [stepUI, step, Option.some.injEq] at hstep
    subst hstep
    exact ⟨hle, hflight, hshown⟩
  | swapLanguages =>
    simp only [stepUI, step, Option.some.injEq] at hstep
    subst hstep
    exact ⟨hle, hflight, hshown⟩
  | editInput text =>
    simp only [stepUI, step, Option.some.injEq] at hstep
    subst hstep
    exact ⟨hle, hflight, hshown⟩
  | languagesSettled o =>
    simp only [stepUI, step] at hstep
    split at hstep
    · simp only [Option.some.injEq] at hstep
      subst hstep
      obtain ⟨_, ht, hl, he⟩ := loadLanguages_frame o p.view
      refine ⟨hle, ?_, ?_⟩
      · intro h1
        simp only [ht, hl, he]
        exact hflight h1
      · simpa [bothShown, ht, he] using hshown
    · exact absurd hstep (by simp)
  | translate =>
    simp only [stepUI] at hstep
    split at hstep
    · exact absurd hstep (by simp)
    · rename_i hload
      simp only [step, Option.some.injEq] at hstep
      subst hstep
      have hzero : p.inFlight = 0 := by
        rcases Nat.le_one_iff_eq_zero_or_eq_one.mp hle with h0 | h1
        · exact h0
        · exact absurd (hflight h1).1 hload
      by_cases hb : trim p.view.inputText = ""
      · rw [doTranslateStart_blank env p.view hb]
        refine ⟨by simp [hzero], ?_, ?_⟩
        · intro h1
          simp [hzero] at h1
        · simp [bothShown, Json.truthy]
      · rw [doTranslateStart_nonblank env p.view hb]
        refine ⟨by simp [hzero], ?_, ?_⟩
        · intro _
          exact ⟨rfl, rfl, rfl⟩
        · simp [bothShown, Json.truthy]
  | translateSettled o =>
    simp only [stepUI, step] at hstep
    split at hstep
    · exact absurd hstep (by simp)
    · rename_i hpos
      simp only [Option.some.injEq] at hstep
      subst hstep
      have hone : p.inFlight = 1 := by
        rcases Nat.le_one_iff_eq_zero_or_eq_one.mp hle with h0 | h1
        · exact absurd h0 hpos
        · exact h1
      obtain ⟨_, htr, herr⟩ := hflight hone
      refine ⟨by simp [hone], ?_, ?_⟩
      · intro h1
        simp [hone] at h1
      · rcases (doTranslateSettle_frame o p.view).2.2 with h | h
        · simp [bothShown, h, htr, Json.truthy]
        · simp [bothShown, h, herr, Json.truthy]

/-- Every sequence of events of the rendered page keeps the page orderly. -/
theorem runUI_orderly (env : Option String) (es : List Event) :
    ∀ p q : Page, Orderly p → runUI env p es = some q → Orderly q := by
  induction es with
  | nil =>
    intro p q hp hrun
    simp only [runUI, Option.some.injEq] at hrun
    subst hrun
    exact hp
  | cons e es ih =>
    intro p q hp hrun
    simp only [runUI] at hrun
    cases hstep : stepUI env p e with
    | none => simp [hstep] at hrun
    | some r =>
      simp only [hstep] at hrun
      exact ih r q (stepUI_orderly env p r e hp hstep) hrun

/-- C1, as stated, fails when two translate requests overlap: after typing
"a" and calling `doTranslate` twice before either request settles, the first
settlement stores the translation "x" and the second, for the response `{}`,
stores the fallback text in `error` without clearing `translation`. -/
theorem overlap_counterexample :
    (run none Page.initial
      [.editInput "a", .translate, .translate,
       .translateSettled (.parsed (.obj [("translation", .str "x")])),
       .translateSettled (.parsed (.obj []))]).map
      (fun p => (p.view.translation.truthy, p.view.error.truthy, bothShown p.view))
      = some (true, true, true) := by
  decide

/-- C1, amended: in every page reached from the initial one by a sequence of
events of the rendered page, where `doTranslate` runs only while `loading`
is false (the submit button is disabled while `loading` is true, so translate
requests do not overlap), `translation` and `error` are not both non-empty;
this holds in particular after every settled translate attempt. -/
theorem translation_error_exclusive (env : Option String) (es : List Event) (p : Page)
    (h : runUI env Page.initial es = some p) :
    ¬ (p.view.translation.truthy = true ∧ p.view.error.truthy = true) := by
  have hp := (runUI_orderly env es Page.initial p orderly_initial h).2.2
  intro hboth
  simp [bothShown, hboth.1, hboth.2] at hp

theorem translation_error_exclusive_witness :
    runUI none Page.initial
      [.editInput "Hello", .translate, .swapLanguages,
       .translateSettled (.parsed (.obj [("translation", .str "x")])),
       .editInput " ", .translate]
      = some { view := { ViewState.initial with
                           source := "hi", target := "en", inputText := " ",
                           error := .str "Enter some text to translate." }
               languagesPending := true
               inFlight := 0 } ∧
    ¬ ((Json.str "").truthy = true ∧
       (Json.str "Enter some text to translate.").truthy = true) :=
  ⟨rfl, translation_error_exclusive none
      [.editInput "Hello", .translate, .swapLanguages,
       .translateSettled (.parsed (.obj [("translation", .str "x")])),
       .editInput " ", .translate] _ rfl⟩

end MultiLang
